import Mathlib

/-!
# Verification of the system_tracking occupancy lifecycle

Shallow embedding of the repository's route handlers (`src/main.py`, the
email-keyed variant, which supersedes `src/fastapi_app/main.py`) over an
explicit document-store state, together with theorems settling the frozen
claims about the machine-occupancy lifecycle, session gate and validation.

Collections are modelled as Lean lists of records in insertion order;
`find_one` is first-match, `delete_one` removes the first match,
`delete_many` filters, `update_one` with `$set` rewrites the first match.
Timestamps are abstract clock ticks (`Nat`); each handler receives the
current time as a parameter (the code reads a wall clock).
-/

namespace SysTrack

/-! ## Python string primitives

The handlers use CPython string operations (`int`, `float`, `str.strip`,
`str.split`, `in`, `str.replace`, `str.rstrip`).  These are embedded here
on `List Char` with structural (fuel-indexed where needed) recursion so
that everything kernel-evaluates.  The embedding covers the ASCII
fragment; CPython additionally accepts non-ASCII Unicode whitespace and
digits, which no input in this development exercises. -/

/-- CPython `str.strip()` whitespace characters (ASCII fragment). -/
def isPyWs (c : Char) : Bool :=
  c == ' ' || c == '\t' || c == '\n' || c == '\r' || c == '\x0b' || c == '\x0c'

/-- `str.strip()` on the ASCII-whitespace fragment. -/
def pyStrip (s : String) : String :=
  String.mk (((s.toList.dropWhile isPyWs).reverse.dropWhile isPyWs).reverse)

/-- `str.rstrip(")")`: drop all trailing `)` characters. -/
def pyRstripParen (s : String) : String :=
  String.mk ((s.toList.reverse.dropWhile (· == ')')).reverse)

/-- Is `pat` a prefix of `cs`? -/
def isPrefixL : List Char → List Char → Bool
  | [], _ => true
  | _ :: _, [] => false
  | p :: ps, c :: cs => p == c && isPrefixL ps cs

/-- Python `sub in s` (substring occurrence), on char lists. -/
def containsL (pat : List Char) : List Char → Bool
  | [] => isPrefixL pat []
  | c :: cs => isPrefixL pat (c :: cs) || containsL pat cs

/-- Python `sub in s`. -/
def pyIn (sub s : String) : Bool := containsL sub.toList s.toList

/-- Fuel-indexed worker for `str.split(sep)` (leftmost, non-overlapping);
fuel `≥` the length of the scanned list makes it total and structural. -/
def splitOnFuel (pat : List Char) : Nat → List Char → List Char → List (List Char)
  | _, [], acc => [acc.reverse]
  | 0, cs, acc => [acc.reverse ++ cs]
  | fuel + 1, c :: cs, acc =>
    if isPrefixL pat (c :: cs) then
      acc.reverse :: splitOnFuel pat fuel (cs.drop (pat.length - 1)) []
    else
      splitOnFuel pat fuel cs (c :: acc)

/-- Python `s.split(sep)` for a non-empty separator. -/
def pySplit (s sep : String) : List String :=
  (splitOnFuel sep.toList s.toList.length s.toList []).map String.mk

/-- Fuel-indexed worker for `str.replace(old, new)` (all leftmost,
non-overlapping occurrences). -/
def replaceFuel (pat repl : List Char) : Nat → List Char → List Char
  | _, [] => []
  | 0, cs => cs
  | fuel + 1, c :: cs =>
    if isPrefixL pat (c :: cs) then
      repl ++ replaceFuel pat repl fuel (cs.drop (pat.length - 1))
    else
      c :: replaceFuel pat repl fuel cs

/-- Python `s.replace(old, new)` for a non-empty `old`. -/
def pyReplace (s old new : String) : String :=
  String.mk (replaceFuel old.toList new.toList s.toList.length s.toList)

/-- Python list indexing `l[i]`; the handlers only index positions that are
guarded to exist (CPython would raise `IndexError` otherwise). -/
def pyIndex (l : List String) (i : Nat) : String := l.getD i ""

/-- A valid CPython digit group: non-empty decimal digits with single
underscores allowed strictly between digits (`1_2` yes; `_1`, `1_`, `1__2` no). -/
def noDoubleUnderscore : List Char → Bool
  | '_' :: '_' :: _ => false
  | _ :: rest => noDoubleUnderscore rest
  | [] => true

/-- Valid digit group (see `noDoubleUnderscore`). -/
def validDigitGroup (cs : List Char) : Bool :=
  match cs with
  | [] => false
  | c :: _ =>
    c.isDigit && (cs.getLast?.all Char.isDigit) &&
      cs.all (fun d => d.isDigit || d == '_') && noDoubleUnderscore cs

/-- Decimal value of a digit group, ignoring underscores. -/
def digitGroupVal (cs : List Char) : Nat :=
  (cs.filter (fun c => c != '_')).foldl (fun n c => 10 * n + (c.toNat - '0'.toNat)) 0

/-- Number of digits (underscores excluded) in a group. -/
def digitCount (cs : List Char) : Nat := (cs.filter (fun c => c != '_')).length

/-- Strip leading and trailing Python whitespace from a char list. -/
def stripWsL (cs : List Char) : List Char :=
  ((cs.dropWhile isPyWs).reverse.dropWhile isPyWs).reverse

/-- Split off an optional sign; returns (isNegative, rest). -/
def splitSign : List Char → Bool × List Char
  | '+' :: rest => (false, rest)
  | '-' :: rest => (true, rest)
  | cs => (false, cs)

/-- CPython `int(s)` on the ASCII fragment: optional surrounding
whitespace, optional sign, then a valid digit group; `none` models the
`ValueError` branch. -/
def pyInt (s : String) : Option Int :=
  let cs := stripWsL s.toList
  let (neg, body) := splitSign cs
  if validDigitGroup body then
    let v : Int := (digitGroupVal body : Int)
    some (if neg then -v else v)
  else
    none

/-- Exact sign/magnitude representation of a parsed decimal literal:
the represented real is `(-1)^neg * (intVal + fracVal / 10^fracDigits)`. -/
structure PyDecimal where
  neg : Bool
  intVal : Nat
  fracVal : Nat
  fracDigits : Nat
deriving DecidableEq

/-- `d > 0` for the represented real: a non-negative sign and a non-zero
digit.  On the grammar fragment below this coincides with CPython's
`float(h) > 0` (no rounding can cross zero without exponents). -/
def PyDecimal.isPos (d : PyDecimal) : Bool :=
  !d.neg && decide (0 < d.intVal + d.fracVal)

/-- CPython `float(s)` restricted to the sign/digits/point fragment the
application's form inputs use: optional whitespace, optional sign, then
`digits`, `digits.digits`, `digits.` or `.digits` (with underscore rules
as for `int`).  Exponent, `inf` and `nan` spellings are outside this
fragment; `none` models the `ValueError` branch. -/
def pyFloat (s : String) : Option PyDecimal :=
  let cs := stripWsL s.toList
  let (neg, body) := splitSign cs
  match (splitOnFuel ['.'] body.length body []) with
  | [ipart] =>
    if validDigitGroup ipart then
      some ⟨neg, digitGroupVal ipart, 0, 0⟩
    else none
  | [ipart, fpart] =>
    if (ipart.isEmpty || validDigitGroup ipart)
        && (fpart.isEmpty || validDigitGroup fpart)
        && !(ipart.isEmpty && fpart.isEmpty) then
      some ⟨neg, digitGroupVal ipart, digitGroupVal fpart, digitCount fpart⟩
    else none
  | _ => none

/-! ## Source validators (`src/main.py` lines 35–50) -/

/-- `validate_ip` (src/main.py:35-42): four `.`-separated parts, each an
`int(p)` with `0 <= int(p) <= 255`; a parse failure anywhere yields `False`. -/
def validate_ip (ip : String) : Bool :=
  let parts := pySplit ip "."
  parts.length == 4 &&
    parts.all (fun p =>
      match pyInt p with
      | some n => decide (0 ≤ n) && decide (n ≤ 255)
      | none => false)

/-- `validate_hours` (src/main.py:45-50): `float(h)` if positive else `None`. -/
def validate_hours (h : String) : Option PyDecimal :=
  match pyFloat h with
  | some v => if v.isPos then some v else none
  | none => none

/-! ## Data model (src/database.py collections; document schemas as the
handlers write them) -/

/-- A document of the `users` collection (src/database.py:36-45). -/
structure UserRec where
  name : String
  email : String
  password : String
  role : String
  created_at : Nat
deriving DecidableEq

/-- The projection `{"_id": 0, "password": 0}` of a user document, as
returned by `get_current_user` (src/main.py:60). -/
structure UserView where
  name : String
  email : String
  role : String
  created_at : Nat
deriving DecidableEq

/-- A document of the `systems` collection: a free machine (src/main.py:408). -/
structure SystemRec where
  ip : String
deriving DecidableEq

/-- A document of the `active_usage` collection (src/main.py:223-230). -/
structure ActiveRec where
  ip : String
  user : String
  project : String
  duration : String
  start_time : Nat
  main_released : Bool
deriving DecidableEq

/-- A document of the `contributors` collection (src/main.py:279-286). -/
structure ContribRec where
  main_ip : String
  main_user : String
  contributor : String
  project : String
  duration : String
  start_time : Nat
deriving DecidableEq

/-- A document of the `usage_logs` collection (src/main.py:343-351,
374-383); `main_user` is present only on contribution logs. -/
structure LogRec where
  ip : String
  user : String
  main_user : Option String
  project : String
  duration : String
  start_time : Nat
  end_time : Nat
  is_contribution : Bool
deriving DecidableEq

/-- A document of the `sessions` collection (src/main.py:137-147). -/
structure SessionRec where
  session_token : String
  email : String
  client_ip : String
  created_at : Nat
  expires_at : Nat
deriving DecidableEq

/-- The whole persistent store, one list per collection, in insertion
order (MongoDB natural order for these small unsorted collections). -/
structure DB where
  users : List UserRec
  systems : List SystemRec
  active : List ActiveRec
  logs : List LogRec
  contributors : List ContribRec
  sessions : List SessionRec
deriving DecidableEq

/-- The empty store. -/
def DB.empty : DB := ⟨[], [], [], [], [], []⟩

/-! ## Store primitives -/

/-- `delete_one`: remove the first document matching the filter. -/
def deleteOne (p : α → Bool) : List α → List α
  | [] => []
  | x :: xs => if p x then xs else x :: deleteOne p xs

/-- `update_one` with `$set`: rewrite the first document matching the filter. -/
def updateOne (p : α → Bool) (f : α → α) : List α → List α
  | [] => []
  | x :: xs => if p x then f x :: xs else x :: updateOne p f xs

/-- `count_documents`. -/
def countDocs (p : α → Bool) (xs : List α) : Nat := (xs.filter p).length

/-- Modelled from the spec: the document store is an external collaborator
(spec §1) and the data model (spec §3) declares `ip` a unique key of the
Systems collection, so `insert_one` raises a duplicate-key error — caught
by the handlers — exactly when a document with the same ip already exists.
The index declaration itself is not part of the repository's source. -/
def systemsInsert (l : List SystemRec) (ip : String) : Option (List SystemRec) :=
  if l.any (fun r => r.ip == ip) then none else some (l ++ [⟨ip⟩])

/-- `insert_one` on `systems` inside `try/except: pass`
(src/main.py:354-357): insert if absent, ignore a duplicate. -/
def systemsInsertIgnore (l : List SystemRec) (ip : String) : List SystemRec :=
  match systemsInsert l ip with
  | some l' => l'
  | none => l

/-- Modelled from the spec: spec §3 declares `ip` a unique key of the
ActiveUsage collection ("store-level uniqueness constraint is the
authority", spec §4.1); `insert_one` fails exactly on a duplicate ip. -/
def activeInsert (l : List ActiveRec) (r : ActiveRec) : Option (List ActiveRec) :=
  if l.any (fun a => a.ip == r.ip) then none else some (l ++ [r])

/-- Modelled from the spec: spec §3 declares Contribution unique on
`(main_ip, main_occupant_identity, contributor_identity, project)`;
`insert_one` fails exactly on a duplicate of that quadruple. -/
def contribInsert (l : List ContribRec) (c : ContribRec) : Option (List ContribRec) :=
  if l.any (fun x =>
      x.main_ip == c.main_ip && x.main_user == c.main_user &&
      x.contributor == c.contributor && x.project == c.project) then
    none
  else
    some (l ++ [c])

/-! ## Route handlers (src/main.py)

Each handler is a function `DB → inputs → Resp × DB`: the HTTP response
outcome paired with the post-state of the store.  The session cookie is
an `Option String` (absent cookie = `none`); `now` is the current clock
tick read wherever the source calls `now_ist()`. -/

/-- Outcome of a handler: an HTMX toast (204 with a success/error
notification payload) or a raised `HTTPException`. -/
inductive Resp where
  | toastOk (msg : String)
  | toastErr (msg : String)
  | httpErr (code : Nat)
deriving DecidableEq

/-- The ip parsed from a composite "ip - using (Owner: email)" label:
`system.split(" - using (Owner: ")[0]` (src/main.py:272,309). -/
def parsedIp (system : String) : String :=
  pyIndex (pySplit system " - using (Owner: ") 0

/-- The owner email parsed from a composite label:
`system.split("(Owner: ")[1].rstrip(")")` (src/main.py:273,310). -/
def parsedOwner (system : String) : String :=
  pyRstripParen (pyIndex (pySplit system "(Owner: ") 1)

/-- `get_current_user` (src/main.py:53-61): resolve the session cookie to
a user document with `_id` and `password` stripped; `None` when the
cookie is absent or falsy, the session row is missing, or the session is
expired (`expires_at < now`). -/
def get_current_user (db : DB) (token : Option String) (now : Nat) : Option UserView :=
  match token with
  | none => none
  | some t =>
    if t == "" then none
    else
      match db.sessions.find? (fun s => s.session_token == t) with
      | none => none
      | some sess =>
        if sess.expires_at < now then none
        else
          match db.users.find? (fun u => u.email == sess.email) with
          | some u => some ⟨u.name, u.email, u.role, u.created_at⟩
          | none => none

/-- `book_system`, POST /book (src/main.py:214-234).  Note the source
performs the `systems` delete before the `active` insert inside one
`try`; when the insert raises, the delete has already been applied. -/
def book_system (db : DB) (token : Option String)
    (ip project duration : String) (now : Nat) : Resp × DB :=
  match get_current_user db token now with
  | none => (.toastErr "Please log in first.", db)
  | some user =>
    if pyStrip project == "" || (validate_hours duration).isNone then
      (.toastErr "Project and valid duration required.", db)
    else
      let db1 := { db with systems := deleteOne (fun r => r.ip == ip) db.systems }
      match activeInsert db1.active ⟨ip, user.email, project, duration, now, false⟩ with
      | some a =>
        (.toastOk (ip ++ " booked successfully!"), { db1 with active := a })
      | none =>
        (.toastErr ("Failed to book system or " ++ ip ++ " already exists."), db1)

/-- `assign_system`, POST /assign (src/main.py:237-290): free-assignment
when the composite form value contains " - free", otherwise
contributor-assignment parsed from the "ip - using (Owner: email)" label. -/
def assign_system (db : DB) (token : Option String)
    (system user_email project duration : String) (now : Nat) : Resp × DB :=
  match get_current_user db token now with
  | none =>
    (.toastErr "Access denied. Only managers or assigners can assign systems.", db)
  | some user =>
    if !(user.role == "manager" || user.role == "assigner") then
      (.toastErr "Access denied. Only managers or assigners can assign systems.", db)
    else if pyStrip project == "" || (validate_hours duration).isNone then
      (.toastErr "Invalid project or duration.", db)
    else
      match db.users.find? (fun u => u.email == user_email && u.role == "user") with
      | none =>
        (.toastErr ("User " ++ user_email ++ " not found or not a normal user."), db)
      | some assigned_user =>
        if pyIn " - free" system then
          let ip := pyReplace system " - free" ""
          let db1 := { db with systems := deleteOne (fun r => r.ip == ip) db.systems }
          match activeInsert db1.active ⟨ip, user_email, project, duration, now, false⟩ with
          | some a =>
            (.toastOk (ip ++ " assigned to " ++ assigned_user.name ++ "."),
              { db1 with active := a })
          | none =>
            (.toastErr "Failed to assign system. Please try again.", db1)
        else if !(pyIn " - using (Owner: " system) then
          (.toastErr "Invalid system format.", db)
        else
          let ip := parsedIp system
          let owner_email := parsedOwner system
          match db.users.find? (fun u => u.email == owner_email) with
          | none => (.toastErr "Invalid owner.", db)
          | some _ =>
            match contribInsert db.contributors
                ⟨ip, owner_email, user_email, project, duration, now⟩ with
            | some c =>
              (.toastOk (assigned_user.name ++ " added as contributor to " ++ ip ++ "."),
                { db with contributors := c })
            | none =>
              (.toastErr "Failed to assign system. Please try again.", db)

/-- `self_contribute`, POST /self/contribute (src/main.py:293-330).  The
duplicate check filters on `(main_ip, contributor)` only — the primary
occupant is not part of the filter. -/
def self_contribute (db : DB) (token : Option String)
    (system project duration : String) (now : Nat) : Resp × DB :=
  match get_current_user db token now with
  | none => (.toastErr "Please log in first.", db)
  | some user =>
    if !(user.role == "user") then
      (.toastErr "Only normal users can self-contribute.", db)
    else if pyStrip project == "" || (validate_hours duration).isNone then
      (.toastErr "Project and valid duration required.", db)
    else if !(pyIn " - using (Owner: " system) then
      (.toastErr "Invalid system format.", db)
    else
      let ip := parsedIp system
      let owner_email := parsedOwner system
      match db.contributors.find?
          (fun c => c.main_ip == ip && c.contributor == user.email) with
      | some _ => (.toastErr "You are already a contributor.", db)
      | none =>
        match contribInsert db.contributors
            ⟨ip, owner_email, user.email, project, duration, now⟩ with
        | some c => (.toastOk ("Joined " ++ ip ++ " as contributor!"),
            { db with contributors := c })
        | none => (.toastErr "Failed to contribute.", db)

/-- `release_main`, POST /release/main (src/main.py:333-362): log the
primary's span, then either return the machine to Free (no contributors
for this ip+primary) or set `main_released` on the active record. -/
def release_main (db : DB) (token : Option String)
    (ip : String) (now : Nat) : Resp × DB :=
  match get_current_user db token now with
  | none => (.httpErr 403, db)
  | some user =>
    match db.active.find? (fun r => r.ip == ip && r.user == user.email) with
    | none => (.httpErr 404, db)
    | some record =>
      let contrib_count := countDocs
        (fun c => c.main_ip == ip && c.main_user == user.email) db.contributors
      let newLog : LogRec := ⟨ip, user.email, none, record.project, record.duration,
        record.start_time, now, false⟩
      let db1 := { db with logs := db.logs ++ [newLog] }
      if contrib_count == 0 then
        let db2 := { db1 with systems := systemsInsertIgnore db1.systems ip }
        let db3 := { db2 with active := deleteOne (fun r => r.ip == ip) db2.active }
        (.toastOk (ip ++ " released."), db3)
      else
        let markReleased := fun (r : ActiveRec) => { r with main_released := true }
        let a1 := updateOne (fun r => r.ip == ip) markReleased db1.active
        (.toastOk (ip ++ " released. Contributors remain."), { db1 with active := a1 })

/-- `release_contrib`, POST /release/contrib (src/main.py:365-397): log
the contribution span, delete the contribution, and free the machine when
no contributions remain for the ip and the primary already released. -/
def release_contrib (db : DB) (token : Option String)
    (main_ip : String) (now : Nat) : Resp × DB :=
  match get_current_user db token now with
  | none => (.httpErr 403, db)
  | some user =>
    match db.contributors.find?
        (fun c => c.main_ip == main_ip && c.contributor == user.email) with
    | none => (.toastErr ("No contribution found for " ++ main_ip ++ "."), db)
    | some c =>
      let newLog : LogRec := ⟨main_ip, user.email, some c.main_user, c.project,
        c.duration, c.start_time, now, true⟩
      let db1 := { db with logs := db.logs ++ [newLog] }
      let c1 := deleteOne
        (fun x => x.main_ip == main_ip && x.contributor == user.email) db1.contributors
      let db2 := { db1 with contributors := c1 }
      let remaining := countDocs (fun x => x.main_ip == main_ip) db2.contributors
      let mr := db2.active.find? (fun r => r.ip == main_ip && r.main_released)
      if remaining == 0 && mr.isSome then
        let db3 := { db2 with systems := systemsInsertIgnore db2.systems main_ip }
        let db4 := { db3 with active := deleteOne (fun r => r.ip == main_ip) db3.active }
        (.toastOk (main_ip ++ " fully released!"), db4)
      else
        (.toastOk ("Contribution to " ++ main_ip ++ " released."), db2)

/-- `add_system`, POST /add/system (src/main.py:400-412). -/
def add_system (db : DB) (token : Option String)
    (ip : String) (now : Nat) : Resp × DB :=
  match get_current_user db token now with
  | none => (.toastErr "Access denied.", db)
  | some user =>
    if !(user.role == "manager" || user.role == "assigner") then
      (.toastErr "Access denied.", db)
    else if !(validate_ip ip) then
      (.toastErr (ip ++ " is in Invalid format!"), db)
    else
      match systemsInsert db.systems ip with
      | some l => (.toastOk (ip ++ " is added successfully!"), { db with systems := l })
      | none => (.toastErr (ip ++ " already exists!"), db)

/-- `remove_system`, POST /remove/system (src/main.py:415-423):
force-delete the Free entry, the active entry and every contribution row
of the ip; nothing is logged. -/
def remove_system (db : DB) (token : Option String)
    (ip : String) (now : Nat) : Resp × DB :=
  match get_current_user db token now with
  | none => (.httpErr 403, db)
  | some user =>
    if !(user.role == "manager" || user.role == "assigner") then
      (.httpErr 403, db)
    else
      (.toastOk (ip ++ " removed!"),
        { db with
          systems := deleteOne (fun r => r.ip == ip) db.systems
          active := deleteOne (fun r => r.ip == ip) db.active
          contributors := db.contributors.filter (fun c => !(c.main_ip == ip)) })

/-! ## State predicates -/

/-- The ip has a Free entry (a `systems` document). -/
def inFree (db : DB) (ip : String) : Bool :=
  db.systems.any (fun r => r.ip == ip)

/-- The ip has an ActiveUsage entry (an `active_usage` document). -/
def inActive (db : DB) (ip : String) : Bool :=
  db.active.any (fun r => r.ip == ip)

/-- The ip is a known machine: it appears in Free or in ActiveUsage. -/
def isMachine (db : DB) (ip : String) : Bool :=
  inFree db ip || inActive db ip

/-- Spec §3 invariant: every known machine ip is in exactly one of
{Free, ActiveUsage} — never both, never neither. -/
def ExactlyOne (db : DB) : Prop :=
  ∀ ip, isMachine db ip = true →
    (inFree db ip = true ∧ inActive db ip = false) ∨
    (inFree db ip = false ∧ inActive db ip = true)

/-- The store invariant: exactly-one plus uniqueness of ips within each
of the two machine collections (the store's unique indexes). -/
def GoodState (db : DB) : Prop :=
  ExactlyOne db ∧ (db.systems.map SystemRec.ip).Nodup ∧
    (db.active.map ActiveRec.ip).Nodup

/-! ## Concrete fixtures used by witnesses and counterexamples -/

/-- A normal user. -/
def uAlice : UserRec := ⟨"Alice", "alice@x.com", "pw", "user", 0⟩

/-- A second normal user. -/
def uBob : UserRec := ⟨"Bob", "bob@x.com", "pw", "user", 0⟩

/-- An assigner. -/
def uCara : UserRec := ⟨"Cara", "cara@x.com", "pw", "assigner", 0⟩

/-- Alice's live session (expires at tick 100). -/
def sessAlice : SessionRec := ⟨"tokA", "alice@x.com", "127.0.0.1", 0, 100⟩

/-- Bob's live session. -/
def sessBob : SessionRec := ⟨"tokB", "bob@x.com", "127.0.0.1", 0, 100⟩

/-- Cara's live session. -/
def sessCara : SessionRec := ⟨"tokC", "cara@x.com", "127.0.0.1", 0, 100⟩

/-- A base store: three users with live sessions and the single free
machine 10.0.0.5. -/
def baseDB : DB :=
  ⟨[uAlice, uBob, uCara], [⟨"10.0.0.5"⟩], [], [], [], [sessAlice, sessBob, sessCara]⟩

/-! ## Lemmas about the store primitives -/

theorem deleteOne_sublist (p : α → Bool) (l : List α) : List.Sublist (deleteOne p l) l := by
  induction l with
  | nil => simp [deleteOne]
  | cons a l ih =>
    simp only [deleteOne]
    split
    · exact List.sublist_cons_self a l
    · exact List.Sublist.cons₂ a ih

theorem any_of_deleteOne_any {p q : α → Bool} {l : List α}
    (h : (deleteOne p l).any q = true) : l.any q = true := by
  rw [List.any_eq_true] at h ⊢
  obtain ⟨x, hx, hq⟩ := h
  exact ⟨x, (deleteOne_sublist p l).subset hx, hq⟩

theorem nodup_map_deleteOne (f : α → β) (p : α → Bool) {l : List α}
    (h : (l.map f).Nodup) : ((deleteOne p l).map f).Nodup :=
  List.Nodup.sublist ((deleteOne_sublist p l).map f) h

theorem not_mem_map_of_any_eq_false {f : α → String} {x : String} {l : List α}
    (h : l.any (fun a => f a == x) = false) : x ∉ l.map f := by
  intro hx
  obtain ⟨a, ha, hfa⟩ := List.mem_map.mp hx
  rw [List.any_eq_false] at h
  exact (h a ha) (by simp [hfa])

/-- Deleting the first match of the unique key leaves no further match. -/
theorem deleteOne_not_any {f : α → String} {x : String} {l : List α}
    (hnd : (l.map f).Nodup) :
    (deleteOne (fun a => f a == x) l).any (fun a => f a == x) = false := by
  induction l with
  | nil => simp [deleteOne]
  | cons a l ih =>
    simp only [List.map_cons, List.nodup_cons] at hnd
    obtain ⟨hna, hnd'⟩ := hnd
    simp only [deleteOne]
    split
    · rename_i hfa
      rw [List.any_eq_false]
      intro b hb hbx
      rw [beq_iff_eq] at hfa hbx
      exact hna (hfa ▸ hbx ▸ List.mem_map_of_mem f hb)
    · rename_i hfa
      simp only [List.any_cons, ih hnd', Bool.or_false]
      simpa using hfa

/-- Deleting by a predicate disjoint from `q` does not change `any q`. -/
theorem deleteOne_any_eq_of_imp {p q : α → Bool} {l : List α}
    (h : ∀ a, p a = true → q a = false) :
    (deleteOne p l).any q = l.any q := by
  induction l with
  | nil => rfl
  | cons a l ih =>
    simp only [deleteOne]
    split
    · rename_i hp
      simp [List.any_cons, h a hp]
    · simp [List.any_cons, ih]

theorem any_updateOne_eq {p : α → Bool} {g : α → α} {q : α → Bool} {l : List α}
    (hq : ∀ a, q (g a) = q a) : (updateOne p g l).any q = l.any q := by
  induction l with
  | nil => rfl
  | cons a l ih =>
    simp only [updateOne]
    split
    · simp [List.any_cons, hq a]
    · simp [List.any_cons, ih]

theorem map_updateOne_eq {g : α → α} {f : α → β} (p : α → Bool) {l : List α}
    (hf : ∀ a, f (g a) = f a) : (updateOne p g l).map f = l.map f := by
  induction l with
  | nil => rfl
  | cons a l ih =>
    simp only [updateOne]
    split
    · simp [hf a]
    · simp [ih]

theorem systemsInsert_some {l : List SystemRec} {ip : String} {l' : List SystemRec}
    (h : systemsInsert l ip = some l') :
    l.any (fun r => r.ip == ip) = false ∧ l' = l ++ [⟨ip⟩] := by
  unfold systemsInsert at h
  split at h
  · exact absurd h (by simp)
  · rename_i hany
    refine ⟨by simpa using hany, ?_⟩
    simpa using h.symm

theorem activeInsert_some {l : List ActiveRec} {r : ActiveRec} {l' : List ActiveRec}
    (h : activeInsert l r = some l') :
    l.any (fun a => a.ip == r.ip) = false ∧ l' = l ++ [r] := by
  unfold activeInsert at h
  split at h
  · exact absurd h (by simp)
  · rename_i hany
    refine ⟨by simpa using hany, ?_⟩
    simpa using h.symm

theorem activeInsert_none {l : List ActiveRec} {r : ActiveRec}
    (h : activeInsert l r = none) : l.any (fun a => a.ip == r.ip) = true := by
  unfold activeInsert at h
  split at h
  · rename_i hany
    exact hany
  · exact absurd h (by simp)

theorem systemsInsertIgnore_eq (l : List SystemRec) (ip : String) :
    systemsInsertIgnore l ip =
      if l.any (fun r => r.ip == ip) then l else l ++ [⟨ip⟩] := by
  by_cases h : l.any (fun r => r.ip == ip) = true
  · simp [systemsInsertIgnore, systemsInsert, h]
  · simp [systemsInsertIgnore, systemsInsert, h]

theorem any_systemsInsertIgnore (l : List SystemRec) (ip x : String) :
    (systemsInsertIgnore l ip).any (fun r => r.ip == x) =
      (l.any (fun r => r.ip == x) || ip == x) := by
  rw [systemsInsertIgnore_eq]
  by_cases hin : l.any (fun r => r.ip == ip) = true
  · rw [if_pos hin]
    by_cases hix : ip = x
    · subst hix
      simp [hin]
    · simp [hix]
  · rw [if_neg hin]
    simp [List.any_append]

theorem nodup_map_append_single {f : α → String} {l : List α} {a : α}
    (h : (l.map f).Nodup) (hna : l.any (fun b => f b == f a) = false) :
    ((l ++ [a]).map f).Nodup := by
  simp only [List.map_append, List.map_cons, List.map_nil]
  rw [List.nodup_append]
  refine ⟨h, List.nodup_singleton _, ?_⟩
  intro x hx hx'
  simp only [List.mem_singleton] at hx'
  subst hx'
  exact not_mem_map_of_any_eq_false hna hx

theorem nodup_systemsInsertIgnore {l : List SystemRec} (ip : String)
    (h : (l.map SystemRec.ip).Nodup) :
    ((systemsInsertIgnore l ip).map SystemRec.ip).Nodup := by
  rw [systemsInsertIgnore_eq]
  by_cases hin : l.any (fun r => r.ip == ip) = true
  · rw [if_pos hin]
    exact h
  · rw [if_neg hin]
    exact nodup_map_append_single h (by simpa using hin)

/-! ## The exactly-one invariant: preservation machinery -/

theorem exactlyOne_iff (db : DB) :
    ExactlyOne db ↔ ∀ ip, ¬(inFree db ip = true ∧ inActive db ip = true) := by
  constructor
  · intro h ip ⟨hf, ha⟩
    rcases h ip (by simp [isMachine, hf]) with ⟨_, h2⟩ | ⟨h1, _⟩
    · rw [h2] at ha
      exact absurd ha (by simp)
    · rw [h1] at hf
      exact absurd hf (by simp)
  · intro h ip hm
    unfold isMachine at hm
    rw [Bool.or_eq_true] at hm
    by_cases hf : inFree db ip = true
    · left
      refine ⟨hf, ?_⟩
      by_cases ha2 : inActive db ip = true
      · exact absurd ⟨hf, ha2⟩ (h ip)
      · simpa using ha2
    · rcases hm with h1 | h2
      · exact absurd h1 hf
      · exact Or.inr ⟨by simpa using hf, h2⟩

/-- The invariant split into conditions on the two machine collections. -/
def GoodParts (S : List SystemRec) (A : List ActiveRec) : Prop :=
  (∀ x, ¬(S.any (fun r => r.ip == x) = true ∧ A.any (fun r => r.ip == x) = true)) ∧
    (S.map SystemRec.ip).Nodup ∧ (A.map ActiveRec.ip).Nodup

theorem goodState_iff (db : DB) : GoodState db ↔ GoodParts db.systems db.active := by
  unfold GoodState GoodParts
  rw [exactlyOne_iff]
  simp only [inFree, inActive]

theorem goodParts_delete_systems {S A} (h : GoodParts S A) (ip : String) :
    GoodParts (deleteOne (fun r => r.ip == ip) S) A := by
  obtain ⟨hx, hs, ha⟩ := h
  refine ⟨?_, nodup_map_deleteOne _ _ hs, ha⟩
  intro x ⟨hf, hact⟩
  exact hx x ⟨any_of_deleteOne_any hf, hact⟩

theorem goodParts_book {S A} (h : GoodParts S A) {ip : String} {r : ActiveRec}
    (hr : r.ip = ip) (hna : A.any (fun a => a.ip == ip) = false) :
    GoodParts (deleteOne (fun s => s.ip == ip) S) (A ++ [r]) := by
  obtain ⟨hx, hs, ha⟩ := h
  refine ⟨?_, nodup_map_deleteOne _ _ hs, nodup_map_append_single ha (by rw [hr]; exact hna)⟩
  intro x ⟨hf, hact⟩
  rw [List.any_append, Bool.or_eq_true] at hact
  rcases hact with hpre | hsing
  · exact hx x ⟨any_of_deleteOne_any hf, hpre⟩
  · have hxip : x = ip := by
      simp only [List.any_cons, List.any_nil, Bool.or_false, beq_iff_eq] at hsing
      rw [← hsing, hr]
    subst hxip
    rw [deleteOne_not_any hs] at hf
    exact absurd hf (by simp)

theorem goodParts_free {S A} (h : GoodParts S A) (ip : String) :
    GoodParts (systemsInsertIgnore S ip) (deleteOne (fun r => r.ip == ip) A) := by
  obtain ⟨hx, hs, ha⟩ := h
  refine ⟨?_, nodup_systemsInsertIgnore ip hs, nodup_map_deleteOne _ _ ha⟩
  intro x ⟨hf, hact⟩
  by_cases hxip : x = ip
  · subst hxip
    rw [deleteOne_not_any ha] at hact
    exact absurd hact (by simp)
  · rw [any_systemsInsertIgnore] at hf
    have hne : (ip == x) = false := by
      simp only [beq_eq_false_iff_ne, ne_eq]
      exact fun e => hxip e.symm
    rw [hne, Bool.or_false] at hf
    exact hx x ⟨hf, any_of_deleteOne_any hact⟩

theorem goodParts_update {S A} (h : GoodParts S A) (p : ActiveRec → Bool)
    (g : ActiveRec → ActiveRec) (hg : ∀ a, (g a).ip = a.ip) :
    GoodParts S (updateOne p g A) := by
  obtain ⟨hx, hs, ha⟩ := h
  refine ⟨?_, hs, by rw [map_updateOne_eq p hg]; exact ha⟩
  intro x ⟨hf, hact⟩
  rw [any_updateOne_eq (fun a => by simp [hg a])] at hact
  exact hx x ⟨hf, hact⟩

theorem goodParts_add {S A S'} (h : GoodParts S A) {ip : String}
    (hins : systemsInsert S ip = some S')
    (hna : A.any (fun a => a.ip == ip) = false) : GoodParts S' A := by
  obtain ⟨hfree, heq⟩ := systemsInsert_some hins
  subst heq
  obtain ⟨hx, hs, ha⟩ := h
  refine ⟨?_, nodup_map_append_single hs (by simpa using hfree), ha⟩
  intro x ⟨hf, hact⟩
  rw [List.any_append, Bool.or_eq_true] at hf
  rcases hf with hpre | hsing
  · exact hx x ⟨hpre, hact⟩
  · have hxip : x = ip := by
      simp only [List.any_cons, List.any_nil, Bool.or_false, beq_iff_eq] at hsing
      exact hsing.symm
    subst hxip
    rw [hna] at hact
    exact absurd hact (by simp)

theorem goodParts_remove {S A} (h : GoodParts S A) (ip : String) :
    GoodParts (deleteOne (fun r => r.ip == ip) S)
      (deleteOne (fun r => r.ip == ip) A) := by
  obtain ⟨hx, hs, ha⟩ := h
  refine ⟨?_, nodup_map_deleteOne _ _ hs, nodup_map_deleteOne _ _ ha⟩
  intro x ⟨hf, hact⟩
  exact hx x ⟨any_of_deleteOne_any hf, any_of_deleteOne_any hact⟩

theorem book_system_preserves {db : DB} (h : GoodState db) (token : Option String)
    (ip project duration : String) (now : Nat) :
    GoodState (book_system db token ip project duration now).2 := by
  rw [goodState_iff] at h ⊢
  cases hu : get_current_user db token now with
  | none => simpa [book_system, hu] using h
  | some user =>
    simp only [book_system, hu]
    split
    · exact h
    · split
      · rename_i a hins
        obtain ⟨hna, haeq⟩ := activeInsert_some hins
        subst haeq
        exact goodParts_book h rfl (by simpa using hna)
      · exact goodParts_delete_systems h ip

theorem assign_system_preserves {db : DB} (h : GoodState db) (token : Option String)
    (system user_email project duration : String) (now : Nat) :
    GoodState (assign_system db token system user_email project duration now).2 := by
  rw [goodState_iff] at h ⊢
  cases hu : get_current_user db token now with
  | none => simpa [assign_system, hu] using h
  | some user =>
    simp only [assign_system, hu]
    split
    · exact h
    · split
      · exact h
      · split
        · exact h
        · split
          · split
            · rename_i a hins
              obtain ⟨hna, haeq⟩ := activeInsert_some hins
              subst haeq
              exact goodParts_book h rfl (by simpa using hna)
            · exact goodParts_delete_systems h _
          · split
            · exact h
            · split
              · exact h
              · split
                · exact h
                · exact h

theorem self_contribute_preserves {db : DB} (h : GoodState db) (token : Option String)
    (system project duration : String) (now : Nat) :
    GoodState (self_contribute db token system project duration now).2 := by
  rw [goodState_iff] at h ⊢
  cases hu : get_current_user db token now with
  | none => simpa [self_contribute, hu] using h
  | some user =>
    simp only [self_contribute, hu]
    split
    · exact h
    · split
      · exact h
      · split
        · exact h
        · split
          · exact h
          · split
            · exact h
            · exact h

theorem release_main_preserves {db : DB} (h : GoodState db) (token : Option String)
    (ip : String) (now : Nat) :
    GoodState (release_main db token ip now).2 := by
  rw [goodState_iff] at h ⊢
  cases hu : get_current_user db token now with
  | none => simpa [release_main, hu] using h
  | some user =>
    simp only [release_main, hu]
    split
    · exact h
    · split
      · exact goodParts_free h ip
      · exact goodParts_update h _ _ (fun a => rfl)

theorem release_contrib_preserves {db : DB} (h : GoodState db) (token : Option String)
    (main_ip : String) (now : Nat) :
    GoodState (release_contrib db token main_ip now).2 := by
  rw [goodState_iff] at h ⊢
  cases hu : get_current_user db token now with
  | none => simpa [release_contrib, hu] using h
  | some user =>
    simp only [release_contrib, hu]
    split
    · exact h
    · split
      · exact goodParts_free h main_ip
      · exact h

theorem add_system_preserves {db : DB} (h : GoodState db) (token : Option String)
    (ip : String) (now : Nat) (hip : inActive db ip = false) :
    GoodState (add_system db token ip now).2 := by
  rw [goodState_iff] at h ⊢
  cases hu : get_current_user db token now with
  | none => simpa [add_system, hu] using h
  | some user =>
    simp only [add_system, hu]
    split
    · exact h
    · split
      · exact h
      · split
        · rename_i l hins
          exact goodParts_add h hins (by simpa [inActive] using hip)
        · exact h

theorem remove_system_preserves {db : DB} (h : GoodState db) (token : Option String)
    (ip : String) (now : Nat) :
    GoodState (remove_system db token ip now).2 := by
  rw [goodState_iff] at h ⊢
  cases hu : get_current_user db token now with
  | none => simpa [remove_system, hu] using h
  | some user =>
    simp only [remove_system, hu]
    split
    · exact h
    · exact goodParts_remove h ip

/-- The base fixture satisfies the store invariant. -/
theorem goodState_baseDB : GoodState baseDB := by
  refine ⟨?_, by decide, by decide⟩
  intro ip hm
  left
  refine ⟨?_, by simp [inActive, baseDB]⟩
  simpa [isMachine, inFree, inActive, baseDB] using hm

/-- The state after Alice books 10.0.0.5 from the base fixture. -/
def c1mid : DB := (book_system baseDB (some "tokA") "10.0.0.5" "proj-x" "2" 10).2

/-- The state after the assigner re-adds the occupied ip 10.0.0.5. -/
def c1bad : DB := (add_system c1mid (some "tokC") "10.0.0.5" 20).2

/-- C1, counterexample: from the good base state, Book followed by
AddMachine on the same ip yields a state in which 10.0.0.5 is in BOTH the
Free collection and ActiveUsage — AddMachine does not preserve the
exactly-one invariant. -/
theorem C1_counterexample :
    ExactlyOne baseDB ∧
    (add_system c1mid (some "tokC") "10.0.0.5" 20).1 =
      .toastOk "10.0.0.5 is added successfully!" ∧
    inFree c1bad "10.0.0.5" = true ∧ inActive c1bad "10.0.0.5" = true ∧
    ¬ ExactlyOne c1bad := by
  refine ⟨goodState_baseDB.1, by decide, by decide, by decide, ?_⟩
  intro hex
  rcases hex "10.0.0.5" (by decide) with ⟨_, h2⟩ | ⟨h1, _⟩
  · exact absurd h2 (by decide)
  · exact absurd h1 (by decide)

/-- C1 (amended): from any state satisfying the store invariant
(exactly-one plus unique ips in each machine collection), every operation
preserves it EXCEPT that AddMachine requires the added ip to not be
currently in ActiveUsage — the handler checks uniqueness only within the
Free collection, so re-adding an occupied ip creates a duplicate state. -/
theorem C1_exactly_one_preserved (db : DB) (h : GoodState db) :
    (∀ token ip project duration now,
      GoodState (book_system db token ip project duration now).2) ∧
    (∀ token system user_email project duration now,
      GoodState (assign_system db token system user_email project duration now).2) ∧
    (∀ token system project duration now,
      GoodState (self_contribute db token system project duration now).2) ∧
    (∀ token ip now, GoodState (release_main db token ip now).2) ∧
    (∀ token main_ip now, GoodState (release_contrib db token main_ip now).2) ∧
    (∀ token ip now, inActive db ip = false →
      GoodState (add_system db token ip now).2) ∧
    (∀ token ip now, GoodState (remove_system db token ip now).2) :=
  ⟨fun token ip project duration now =>
      book_system_preserves h token ip project duration now,
   fun token system user_email project duration now =>
      assign_system_preserves h token system user_email project duration now,
   fun token system project duration now =>
      self_contribute_preserves h token system project duration now,
   fun token ip now => release_main_preserves h token ip now,
   fun token main_ip now => release_contrib_preserves h token main_ip now,
   fun token ip now hip => add_system_preserves h token ip now hip,
   fun token ip now => remove_system_preserves h token ip now⟩

/-- C1 witness: the amended preservation theorem applied to the concrete
base state and a concrete Book operation. -/
theorem C1_exactly_one_preserved_witness :
    GoodState baseDB ∧
    GoodState (book_system baseDB (some "tokA") "10.0.0.5" "proj-x" "2" 10).2 :=
  ⟨goodState_baseDB,
   (C1_exactly_one_preserved baseDB goodState_baseDB).1
     (some "tokA") "10.0.0.5" "proj-x" "2" 10⟩

theorem deleteOne_of_not_any {p : α → Bool} {l : List α}
    (h : l.any p = false) : deleteOne p l = l := by
  induction l with
  | nil => rfl
  | cons a l ih =>
    rw [List.any_cons, Bool.or_eq_false_iff] at h
    simp only [deleteOne, h.1, ih h.2]
    rw [if_neg (by simp [h.1])]

/-- C2, counterexample: Book does not require `ip ∈ Free` as a
precondition — from the base state, booking the never-added ip 9.9.9.9
(in neither Free nor ActiveUsage) succeeds and creates the ActiveUsage
record. -/
theorem C2_counterexample :
    inFree baseDB "9.9.9.9" = false ∧ inActive baseDB "9.9.9.9" = false ∧
    (book_system baseDB (some "tokA") "9.9.9.9" "p" "1" 7).1 =
      .toastOk "9.9.9.9 booked successfully!" ∧
    (book_system baseDB (some "tokA") "9.9.9.9" "p" "1" 7).2.active =
      [⟨"9.9.9.9", "alice@x.com", "p", "1", 7, false⟩] := by
  decide

/-- C2 (amended): for a logged-in user with valid project and duration,
Book(ip, identity, project, duration) does not check that ip is in Free:
whenever ip is not in ActiveUsage — even if it was never added — it
removes the first Free entry for ip if any and creates
Occupied(primary=identity, main_released=false), leaving contributors and
logs unchanged; when ip is already occupied the store's unique-ip
constraint rejects the insert (Conflict): no second ActiveUsage record is
created and only the Free entry (none under the exactly-one invariant)
could have been removed by the preceding delete. -/
theorem C2_book (db : DB) (token : Option String) (ip project duration : String)
    (now : Nat) (user : UserView)
    (hu : get_current_user db token now = some user)
    (hproj : pyStrip project ≠ "")
    (hdur : (validate_hours duration).isNone = false) :
    (inActive db ip = false →
      book_system db token ip project duration now =
        (.toastOk (ip ++ " booked successfully!"),
          { db with systems := deleteOne (fun r => r.ip == ip) db.systems,
                    active := db.active ++
                      [⟨ip, user.email, project, duration, now, false⟩] })) ∧
    (inActive db ip = true →
      (book_system db token ip project duration now).1 =
        .toastErr ("Failed to book system or " ++ ip ++ " already exists.") ∧
      (book_system db token ip project duration now).2 =
        { db with systems := deleteOne (fun r => r.ip == ip) db.systems } ∧
      (inFree db ip = false →
        (book_system db token ip project duration now).2 = db)) := by
  have hcond : (pyStrip project == "" || (validate_hours duration).isNone) = false := by
    rw [Bool.or_eq_false_iff]
    exact ⟨by simpa using hproj, hdur⟩
  constructor
  · intro hna
    unfold inActive at hna
    simp [book_system, hu, hcond, activeInsert, hna]
  · intro hocc
    unfold inActive at hocc
    refine ⟨?_, ?_, ?_⟩
    · simp [book_system, hu, hcond, activeInsert, hocc]
    · simp [book_system, hu, hcond, activeInsert, hocc]
    · intro hfree
      unfold inFree at hfree
      simp [book_system, hu, hcond, activeInsert, hocc, deleteOne_of_not_any hfree]

/-- C2 witness: the amended Book theorem at the concrete base state,
success case (9.9.9.9 not occupied). -/
theorem C2_book_witness :
    book_system baseDB (some "tokA") "9.9.9.9" "p" "1" 7 =
      (.toastOk "9.9.9.9 booked successfully!",
        { baseDB with
            systems := deleteOne (fun r => r.ip == "9.9.9.9") baseDB.systems,
            active := baseDB.active ++
              [⟨"9.9.9.9", "alice@x.com", "p", "1", 7, false⟩] }) :=
  (C2_book baseDB (some "tokA") "9.9.9.9" "p" "1" 7
    ⟨"Alice", "alice@x.com", "user", 0⟩
    (by decide) (by decide) (by decide)).1 (by decide)

/-- C3, counterexample: adding a contributor never checks ActiveUsage —
with nothing occupied at all, both SelfContribute and AssignContribute on
a well-formed composite label naming the non-occupied ip 9.9.9.9 succeed
and create a Contribution row. -/
theorem C3_counterexample :
    inActive baseDB "9.9.9.9" = false ∧
    (self_contribute baseDB (some "tokB")
        "9.9.9.9 - using (Owner: alice@x.com)" "p" "1" 9).1 =
      .toastOk "Joined 9.9.9.9 as contributor!" ∧
    (self_contribute baseDB (some "tokB")
        "9.9.9.9 - using (Owner: alice@x.com)" "p" "1" 9).2.contributors =
      [⟨"9.9.9.9", "alice@x.com", "bob@x.com", "p", "1", 9⟩] ∧
    (assign_system baseDB (some "tokC")
        "9.9.9.9 - using (Owner: alice@x.com)" "bob@x.com" "q" "1" 9).1 =
      .toastOk "Bob added as contributor to 9.9.9.9." ∧
    (assign_system baseDB (some "tokC")
        "9.9.9.9 - using (Owner: alice@x.com)" "bob@x.com" "q" "1" 9).2.contributors =
      [⟨"9.9.9.9", "alice@x.com", "bob@x.com", "q", "1", 9⟩] := by
  decide

/-- C3 (amended): the contribute operations never consult ActiveUsage.
What the code does guarantee: SelfContribute never touches Free,
ActiveUsage or UsageLogs; when its composite system label lacks the
" - using (Owner: " marker it fails with no mutation at all and never
reports success; the AssignContribute path (a system label without
" - free") has the same frame and the same malformed-label behaviour.  A
well-formed label naming a non-occupied ip, however, creates a
Contribution row (see the counterexample). -/
theorem C3_contribute (db : DB) (token : Option String)
    (system user_email project duration : String) (now : Nat) :
    ((self_contribute db token system project duration now).2.systems = db.systems ∧
     (self_contribute db token system project duration now).2.active = db.active ∧
     (self_contribute db token system project duration now).2.logs = db.logs) ∧
    (pyIn " - using (Owner: " system = false →
      (self_contribute db token system project duration now).2 = db ∧
      ∀ m, (self_contribute db token system project duration now).1 ≠ .toastOk m) ∧
    (pyIn " - free" system = false →
      ((assign_system db token system user_email project duration now).2.systems =
          db.systems ∧
       (assign_system db token system user_email project duration now).2.active =
          db.active ∧
       (assign_system db token system user_email project duration now).2.logs =
          db.logs) ∧
      (pyIn " - using (Owner: " system = false →
        (assign_system db token system user_email project duration now).2 = db ∧
        ∀ m, (assign_system db token system user_email project duration now).1 ≠
          .toastOk m)) := by
  refine ⟨?_, ?_, ?_⟩
  · cases hu : get_current_user db token now with
    | none => simp [self_contribute, hu]
    | some user =>
      simp only [self_contribute, hu]
      split
      · exact ⟨rfl, rfl, rfl⟩
      · split
        · exact ⟨rfl, rfl, rfl⟩
        · split
          · exact ⟨rfl, rfl, rfl⟩
          · split
            · exact ⟨rfl, rfl, rfl⟩
            · split
              · exact ⟨rfl, rfl, rfl⟩
              · exact ⟨rfl, rfl, rfl⟩
  · intro hmark
    cases hu : get_current_user db token now with
    | none => simp [self_contribute, hu]
    | some user =>
      simp only [self_contribute, hu]
      split
      · exact ⟨rfl, by simp⟩
      · split
        · exact ⟨rfl, by simp⟩
        · split
          · exact ⟨rfl, by simp⟩
          · rename_i hm
            rw [hmark] at hm
            exact absurd hm (by simp)
  · intro hfree
    refine ⟨?_, ?_⟩
    · cases hu : get_current_user db token now with
      | none => simp [assign_system, hu]
      | some user =>
        simp only [assign_system, hu]
        split
        · exact ⟨rfl, rfl, rfl⟩
        · split
          · exact ⟨rfl, rfl, rfl⟩
          · split
            · exact ⟨rfl, rfl, rfl⟩
            · split
              · rename_i hm
                rw [hfree] at hm
                exact absurd hm (by simp)
              · split
                · exact ⟨rfl, rfl, rfl⟩
                · split
                  · exact ⟨rfl, rfl, rfl⟩
                  · split
                    · exact ⟨rfl, rfl, rfl⟩
                    · exact ⟨rfl, rfl, rfl⟩
    · intro hmark
      cases hu : get_current_user db token now with
      | none => simp [assign_system, hu]
      | some user =>
        simp only [assign_system, hu]
        split
        · exact ⟨rfl, by simp⟩
        · split
          · exact ⟨rfl, by simp⟩
          · split
            · exact ⟨rfl, by simp⟩
            · split
              · rename_i hm
                rw [hfree] at hm
                exact absurd hm (by simp)
              · split
                · exact ⟨rfl, by simp⟩
                · rename_i hm
                  rw [hmark] at hm
                  exact absurd hm (by simp)

/-- C3 witness: the amended theorem at concrete inputs — a malformed
label mutates nothing for either operation. -/
theorem C3_contribute_witness :
    (self_contribute baseDB (some "tokB") "garbage" "p" "1" 9).2 = baseDB ∧
    (assign_system baseDB (some "tokC") "garbage" "bob@x.com" "p" "1" 9).2 = baseDB :=
  ⟨((C3_contribute baseDB (some "tokB") "garbage" "bob@x.com" "p" "1" 9).2.1
      (by decide)).1,
   (((C3_contribute baseDB (some "tokC") "garbage" "bob@x.com" "p" "1" 9).2.2
      (by decide)).2 (by decide)).1⟩

/-- Stage 1 of the C4 scenario: Alice books the free machine 10.0.0.5. -/
def c4s1 : DB := (book_system baseDB (some "tokA") "10.0.0.5" "proj-x" "2" 10).2

/-- Stage 2: Bob self-contributes on Alice's machine. -/
def c4s2 : DB := (self_contribute c4s1 (some "tokB")
  "10.0.0.5 - using (Owner: alice@x.com)" "proj-y" "1" 11).2

/-- Stage 3: Alice releases as primary while Bob remains. -/
def c4s3 : DB := (release_main c4s2 (some "tokA") "10.0.0.5" 12).2

/-- Stage 4: Bob releases his contribution; the machine frees up. -/
def c4s4 : DB := (release_contrib c4s3 (some "tokB") "10.0.0.5" 13).2

/-- C4: the Book; SelfContribute; ReleasePrimary; ReleaseContribution
scenario passes through exactly the claimed states: Occupied(alice, no
contributors), then contributors=[bob], then Occupied(alice,
released=true, [bob]) with one primary log, ending Free with two logs,
the second a contribution log. -/
theorem C4_scenario :
    c4s1.active = [⟨"10.0.0.5", "alice@x.com", "proj-x", "2", 10, false⟩] ∧
    c4s1.systems = [] ∧ c4s1.contributors = [] ∧ c4s1.logs = [] ∧
    c4s2.contributors =
      [⟨"10.0.0.5", "alice@x.com", "bob@x.com", "proj-y", "1", 11⟩] ∧
    c4s2.active = c4s1.active ∧ c4s2.logs = [] ∧
    c4s3.active = [⟨"10.0.0.5", "alice@x.com", "proj-x", "2", 10, true⟩] ∧
    c4s3.systems = [] ∧ c4s3.contributors = c4s2.contributors ∧
    c4s3.logs = [⟨"10.0.0.5", "alice@x.com", none, "proj-x", "2", 10, 12, false⟩] ∧
    c4s4.systems = [⟨"10.0.0.5"⟩] ∧ c4s4.active = [] ∧ c4s4.contributors = [] ∧
    c4s4.logs =
      [⟨"10.0.0.5", "alice@x.com", none, "proj-x", "2", 10, 12, false⟩,
       ⟨"10.0.0.5", "bob@x.com", some "alice@x.com", "proj-y", "1", 11, 13, true⟩] := by
  decide

/-- The C5 start state: Alice occupies 10.0.0.5 and Bob is already a
contributor (primary alice, project proj-y). -/
def c5db : DB := (self_contribute
  (book_system baseDB (some "tokA") "10.0.0.5" "proj-x" "2" 10).2
  (some "tokB") "10.0.0.5 - using (Owner: alice@x.com)" "proj-y" "1" 11).2

/-- C5, counterexample: Bob is already a contributor of 10.0.0.5 with
primary alice; a second AssignContribute of Bob to the same ip+primary
with a different project is NOT rejected — it creates a second
Contribution row for the same (ip, primary, contributor). -/
theorem C5_counterexample :
    c5db.contributors =
      [⟨"10.0.0.5", "alice@x.com", "bob@x.com", "proj-y", "1", 11⟩] ∧
    (assign_system c5db (some "tokC") "10.0.0.5 - using (Owner: alice@x.com)"
        "bob@x.com" "proj-z" "1" 14).1 =
      .toastOk "Bob added as contributor to 10.0.0.5." ∧
    (assign_system c5db (some "tokC") "10.0.0.5 - using (Owner: alice@x.com)"
        "bob@x.com" "proj-z" "1" 14).2.contributors =
      [⟨"10.0.0.5", "alice@x.com", "bob@x.com", "proj-y", "1", 11⟩,
       ⟨"10.0.0.5", "alice@x.com", "bob@x.com", "proj-z", "1", 14⟩] := by
  decide

/-- C5 (amended): SelfContribute rejects a duplicate whenever the caller
is already a contributor of the parsed ip (whatever the primary or
project), with no second row and no success report; AssignContribute
rejects only an exact duplicate of (ip, primary, contributor, project) —
the store's uniqueness quadruple — so a repeat with a different project
creates a second Contribution row. -/
theorem C5_duplicate (db : DB) (token : Option String)
    (system user_email project duration : String) (now : Nat) (user : UserView)
    (hu : get_current_user db token now = some user) :
    ((db.contributors.find? (fun c => c.main_ip == parsedIp system &&
        c.contributor == user.email)).isSome = true →
      (self_contribute db token system project duration now).2.contributors =
        db.contributors ∧
      ∀ m, (self_contribute db token system project duration now).1 ≠ .toastOk m) ∧
    (db.contributors.any (fun x => x.main_ip == parsedIp system &&
        x.main_user == parsedOwner system && x.contributor == user_email &&
        x.project == project) = true →
      pyIn " - free" system = false →
      (assign_system db token system user_email project duration now).2.contributors =
        db.contributors ∧
      ∀ m, (assign_system db token system user_email project duration now).1 ≠
        .toastOk m) := by
  constructor
  · intro hdup
    obtain ⟨c, hc⟩ := Option.isSome_iff_exists.mp hdup
    simp only [self_contribute, hu]
    split
    · exact ⟨rfl, by simp⟩
    · split
      · exact ⟨rfl, by simp⟩
      · split
        · exact ⟨rfl, by simp⟩
        · rw [hc]
          exact ⟨rfl, by simp⟩
  · intro hdup hfree
    simp only [assign_system, hu]
    split
    · exact ⟨rfl, by simp⟩
    · split
      · exact ⟨rfl, by simp⟩
      · split
        · exact ⟨rfl, by simp⟩
        · split
          · rename_i hm
            rw [hfree] at hm
            exact absurd hm (by simp)
          · split
            · exact ⟨rfl, by simp⟩
            · split
              · exact ⟨rfl, by simp⟩
              · rw [show contribInsert db.contributors
                    ⟨parsedIp system, parsedOwner system, user_email,
                      project, duration, now⟩ = none by
                  unfold contribInsert
                  rw [if_pos hdup]]
                exact ⟨rfl, by simp⟩

/-- C5 witness: from the C5 start state, a duplicate SelfContribute by
Bob and an exact-duplicate AssignContribute (same project) both leave the
Contribution collection unchanged. -/
theorem C5_duplicate_witness :
    (self_contribute c5db (some "tokB")
      "10.0.0.5 - using (Owner: alice@x.com)" "other" "1" 14).2.contributors =
        c5db.contributors ∧
    (assign_system c5db (some "tokC") "10.0.0.5 - using (Owner: alice@x.com)"
      "bob@x.com" "proj-y" "1" 14).2.contributors = c5db.contributors :=
  ⟨((C5_duplicate c5db (some "tokB") "10.0.0.5 - using (Owner: alice@x.com)"
      "bob@x.com" "other" "1" 14 ⟨"Bob", "bob@x.com", "user", 0⟩
      (by decide)).1 (by decide)).1,
   ((C5_duplicate c5db (some "tokC") "10.0.0.5 - using (Owner: alice@x.com)"
      "bob@x.com" "proj-y" "1" 14 ⟨"Cara", "cara@x.com", "assigner", 0⟩
      (by decide)).2 (by decide) (by decide)).1⟩

/-- C6: Authenticate.  `get_current_user` returns no identity when the
token has no session row, or when the session is expired
(`expires_at < now`, strict); for a live session whose email resolves to
a user it returns that user with the password field stripped (the
`UserView` projection has no password).  And no lifecycle handler ever
writes to the sessions collection — using a session never refreshes its
expiry. -/
theorem C6_authenticate (db : DB) (t : String) (now : Nat) (ht : t ≠ "") :
    (db.sessions.find? (fun s => s.session_token == t) = none →
      get_current_user db (some t) now = none) ∧
    (∀ sess, db.sessions.find? (fun s => s.session_token == t) = some sess →
      sess.expires_at < now → get_current_user db (some t) now = none) ∧
    (∀ sess u, db.sessions.find? (fun s => s.session_token == t) = some sess →
      ¬(sess.expires_at < now) →
      db.users.find? (fun x => x.email == sess.email) = some u →
      get_current_user db (some t) now =
        some ⟨u.name, u.email, u.role, u.created_at⟩) ∧
    (∀ token ip system user_email project duration main_ip now',
      (book_system db token ip project duration now').2.sessions = db.sessions ∧
      (assign_system db token system user_email project duration now').2.sessions =
        db.sessions ∧
      (self_contribute db token system project duration now').2.sessions =
        db.sessions ∧
      (release_main db token ip now').2.sessions = db.sessions ∧
      (release_contrib db token main_ip now').2.sessions = db.sessions ∧
      (add_system db token ip now').2.sessions = db.sessions ∧
      (remove_system db token ip now').2.sessions = db.sessions) := by
  have htb : (t == "") = false := by simpa using ht
  refine ⟨?_, ?_, ?_, ?_⟩
  · intro hnone
    simp [get_current_user, htb, hnone]
  · intro sess hsess hexp
    simp [get_current_user, htb, hsess, hexp]
  · intro sess u hsess hexp hu
    simp [get_current_user, htb, hsess, if_neg hexp, hu]
  · intro token ip system user_email project duration main_ip now'
    refine ⟨?_, ?_, ?_, ?_, ?_, ?_, ?_⟩ <;>
      cases hu : get_current_user db token now' <;>
        simp only [book_system, assign_system, self_contribute, release_main,
          release_contrib, add_system, remove_system, hu] <;>
          repeat first | rfl | split

/-- C6 witness: at the base fixture, Alice's live token resolves to her
stripped user record, an unknown token yields no identity, and a Book
call leaves the sessions collection unchanged. -/
theorem C6_authenticate_witness :
    get_current_user baseDB (some "tokA") 10 =
      some ⟨"Alice", "alice@x.com", "user", 0⟩ ∧
    get_current_user baseDB (some "nosuch") 10 = none ∧
    (book_system baseDB (some "tokA") "10.0.0.5" "proj-x" "2" 10).2.sessions =
      baseDB.sessions :=
  ⟨(C6_authenticate baseDB "tokA" 10 (by decide)).2.2.1 sessAlice uAlice
      (by decide) (by decide) (by decide),
   (C6_authenticate baseDB "nosuch" 10 (by decide)).1 (by decide),
   ((C6_authenticate baseDB "tokA" 10 (by decide)).2.2.2
      (some "tokA") "10.0.0.5" "s" "u" "proj-x" "2" "m" 10).1⟩

/-! ## Mutation traces of the release handlers (for the ordering claim) -/

/-- One store mutation, in the order the source issues them. -/
inductive StoreOp where
  | insertLog (l : LogRec)
  | insertSystemIgnore (ip : String)
  | deleteActive (ip : String)
  | deleteContrib (main_ip contributor : String)
  | updateActiveReleased (ip : String)
deriving DecidableEq

/-- Is the operation a deletion of ActiveUsage or Contribution state? -/
def StoreOp.isDeleteOp : StoreOp → Bool
  | .deleteActive _ => true
  | .deleteContrib _ _ => true
  | _ => false

/-- Semantics of one store mutation on the state. -/
def applyOp (db : DB) : StoreOp → DB
  | .insertLog l => { db with logs := db.logs ++ [l] }
  | .insertSystemIgnore ip =>
      { db with systems := systemsInsertIgnore db.systems ip }
  | .deleteActive ip =>
      { db with active := deleteOne (fun r => r.ip == ip) db.active }
  | .deleteContrib mip c =>
      let c1 := deleteOne (fun x => x.main_ip == mip && x.contributor == c)
        db.contributors
      { db with contributors := c1 }
  | .updateActiveReleased ip =>
      let a1 := updateOne (fun r => r.ip == ip)
        (fun r => { r with main_released := true }) db.active
      { db with active := a1 }

/-- Fold a mutation sequence over the state. -/
def applyOps (db : DB) (ops : List StoreOp) : DB := ops.foldl applyOp db

/-- The sequence of store mutations `release_main` issues, in source
order (src/main.py:343-361): the log insert, then — when no contributors
remain for the primary — the Free re-insert and the ActiveUsage delete,
otherwise the `main_released` update. -/
def release_main_ops (db : DB) (token : Option String)
    (ip : String) (now : Nat) : List StoreOp :=
  match get_current_user db token now with
  | none => []
  | some user =>
    match db.active.find? (fun r => r.ip == ip && r.user == user.email) with
    | none => []
    | some record =>
      let contrib_count := countDocs
        (fun c => c.main_ip == ip && c.main_user == user.email) db.contributors
      let logOp := StoreOp.insertLog ⟨ip, user.email, none, record.project,
        record.duration, record.start_time, now, false⟩
      if contrib_count == 0 then
        [logOp, .insertSystemIgnore ip, .deleteActive ip]
      else
        [logOp, .updateActiveReleased ip]

/-- The sequence of store mutations `release_contrib` issues, in source
order (src/main.py:374-393): the log insert, then the Contribution
delete, then — when nothing remains and the primary already released —
the Free re-insert and the ActiveUsage delete. -/
def release_contrib_ops (db : DB) (token : Option String)
    (main_ip : String) (now : Nat) : List StoreOp :=
  match get_current_user db token now with
  | none => []
  | some user =>
    match db.contributors.find?
        (fun c => c.main_ip == main_ip && c.contributor == user.email) with
    | none => []
    | some c =>
      let logOp := StoreOp.insertLog ⟨main_ip, user.email, some c.main_user,
        c.project, c.duration, c.start_time, now, true⟩
      let delOp := StoreOp.deleteContrib main_ip user.email
      let c1 := deleteOne
        (fun x => x.main_ip == main_ip && x.contributor == user.email)
        db.contributors
      let remaining := countDocs (fun x => x.main_ip == main_ip) c1
      let mr := db.active.find? (fun r => r.ip == main_ip && r.main_released)
      if remaining == 0 && mr.isSome then
        [logOp, delOp, .insertSystemIgnore main_ip, .deleteActive main_ip]
      else
        [logOp, delOp]

/-- C7: in both release handlers, every state deletion in the issued
mutation sequence is strictly preceded by the UsageLog insertion, and the
sequences faithfully reproduce the post-states of the handlers. -/
theorem C7_log_before_delete (db : DB) (token : Option String)
    (ip : String) (now : Nat) :
    (∀ j op, (release_main_ops db token ip now).get? j = some op →
      op.isDeleteOp = true →
      ∃ i l, i < j ∧ (release_main_ops db token ip now).get? i =
        some (.insertLog l)) ∧
    (∀ j op, (release_contrib_ops db token ip now).get? j = some op →
      op.isDeleteOp = true →
      ∃ i l, i < j ∧ (release_contrib_ops db token ip now).get? i =
        some (.insertLog l)) ∧
    applyOps db (release_main_ops db token ip now) =
      (release_main db token ip now).2 ∧
    applyOps db (release_contrib_ops db token ip now) =
      (release_contrib db token ip now).2 := by
  refine ⟨?_, ?_, ?_, ?_⟩
  · cases hu : get_current_user db token now with
    | none =>
      intro j op hj hdel
      rw [show release_main_ops db token ip now = [] by
        simp [release_main_ops, hu]] at hj
      simp at hj
    | some user =>
      cases hrec : db.active.find?
          (fun r => r.ip == ip && r.user == user.email) with
      | none =>
        intro j op hj hdel
        rw [show release_main_ops db token ip now = [] by
          simp [release_main_ops, hu, hrec]] at hj
        simp at hj
      | some record =>
        by_cases hcnt : (countDocs (fun c => c.main_ip == ip &&
            c.main_user == user.email) db.contributors == 0) = true
        · rw [show release_main_ops db token ip now =
              [.insertLog ⟨ip, user.email, none, record.project,
                record.duration, record.start_time, now, false⟩,
               .insertSystemIgnore ip, .deleteActive ip] by
            simp only [release_main_ops, hu, hrec]
            rw [if_pos hcnt]]
          intro j op hj hdel
          match j with
          | 0 =>
            simp only [List.get?, Option.some.injEq] at hj
            subst hj
            simp [StoreOp.isDeleteOp] at hdel
          | 1 =>
            simp only [List.get?, Option.some.injEq] at hj
            subst hj
            simp [StoreOp.isDeleteOp] at hdel
          | 2 => exact ⟨0, _, by omega, rfl⟩
          | n + 3 => simp [List.get?] at hj
        · rw [show release_main_ops db token ip now =
              [.insertLog ⟨ip, user.email, none, record.project,
                record.duration, record.start_time, now, false⟩,
               .updateActiveReleased ip] by
            simp only [release_main_ops, hu, hrec]
            rw [if_neg hcnt]]
          intro j op hj hdel
          match j with
          | 0 =>
            simp only [List.get?, Option.some.injEq] at hj
            subst hj
            simp [StoreOp.isDeleteOp] at hdel
          | 1 =>
            simp only [List.get?, Option.some.injEq] at hj
            subst hj
            simp [StoreOp.isDeleteOp] at hdel
          | n + 2 => simp [List.get?] at hj
  · cases hu : get_current_user db token now with
    | none =>
      intro j op hj hdel
      rw [show release_contrib_ops db token ip now = [] by
        simp [release_contrib_ops, hu]] at hj
      simp at hj
    | some user =>
      cases hrec : db.contributors.find?
          (fun c => c.main_ip == ip && c.contributor == user.email) with
      | none =>
        intro j op hj hdel
        rw [show release_contrib_ops db token ip now = [] by
          simp [release_contrib_ops, hu, hrec]] at hj
        simp at hj
      | some c =>
        by_cases hcnt : (countDocs (fun x => x.main_ip == ip)
            (deleteOne (fun x => x.main_ip == ip && x.contributor == user.email)
              db.contributors) == 0 &&
            (db.active.find? (fun r => r.ip == ip && r.main_released)).isSome)
            = true
        · rw [show release_contrib_ops db token ip now =
              [.insertLog ⟨ip, user.email, some c.main_user, c.project,
                c.duration, c.start_time, now, true⟩,
               .deleteContrib ip user.email,
               .insertSystemIgnore ip, .deleteActive ip] by
            simp only [release_contrib_ops, hu, hrec]
            rw [if_pos hcnt]]
          intro j op hj hdel
          match j with
          | 0 =>
            simp only [List.get?, Option.some.injEq] at hj
            subst hj
            simp [StoreOp.isDeleteOp] at hdel
          | 1 => exact ⟨0, _, by omega, rfl⟩
          | 2 =>
            simp only [List.get?, Option.some.injEq] at hj
            subst hj
            simp [StoreOp.isDeleteOp] at hdel
          | 3 => exact ⟨0, _, by omega, rfl⟩
          | n + 4 => simp [List.get?] at hj
        · rw [show release_contrib_ops db token ip now =
              [.insertLog ⟨ip, user.email, some c.main_user, c.project,
                c.duration, c.start_time, now, true⟩,
               .deleteContrib ip user.email] by
            simp only [release_contrib_ops, hu, hrec]
            rw [if_neg hcnt]]
          intro j op hj hdel
          match j with
          | 0 =>
            simp only [List.get?, Option.some.injEq] at hj
            subst hj
            simp [StoreOp.isDeleteOp] at hdel
          | 1 => exact ⟨0, _, by omega, rfl⟩
          | n + 2 => simp [List.get?] at hj
  · cases hu : get_current_user db token now with
    | none => simp [release_main_ops, release_main, hu, applyOps]
    | some user =>
      cases hrec : db.active.find?
          (fun r => r.ip == ip && r.user == user.email) with
      | none => simp [release_main_ops, release_main, hu, hrec, applyOps]
      | some record =>
        simp only [release_main_ops, release_main, hu, hrec]
        by_cases hcnt : (countDocs (fun c => c.main_ip == ip &&
            c.main_user == user.email) db.contributors == 0) = true
        · rw [if_pos hcnt, if_pos hcnt]
          rfl
        · rw [if_neg hcnt, if_neg hcnt]
          rfl
  · cases hu : get_current_user db token now with
    | none => simp [release_contrib_ops, release_contrib, hu, applyOps]
    | some user =>
      cases hrec : db.contributors.find?
          (fun c => c.main_ip == ip && c.contributor == user.email) with
      | none => simp [release_contrib_ops, release_contrib, hu, hrec, applyOps]
      | some c =>
        simp only [release_contrib_ops, release_contrib, hu, hrec]
        by_cases hcnt : (countDocs (fun x => x.main_ip == ip)
            (deleteOne (fun x => x.main_ip == ip && x.contributor == user.email)
              db.contributors) == 0 &&
            (db.active.find? (fun r => r.ip == ip && r.main_released)).isSome)
            = true
        · rw [if_pos hcnt, if_pos hcnt]
          rfl
        · rw [if_neg hcnt, if_neg hcnt]
          rfl

/-- C7 witness: the ordering property instantiated on a concrete
release_contrib trace — the delete at index 1 is preceded by the log
insert at index 0 — and trace/handler agreement on the same state. -/
theorem C7_log_before_delete_witness :
    (∃ i l, i < 1 ∧ (release_contrib_ops c5db (some "tokB") "10.0.0.5" 14).get? i =
      some (.insertLog l)) ∧
    applyOps c5db (release_main_ops c5db (some "tokA") "10.0.0.5" 14) =
      (release_main c5db (some "tokA") "10.0.0.5" 14).2 :=
  ⟨(C7_log_before_delete c5db (some "tokB") "10.0.0.5" 14).2.1 1
      (.deleteContrib "10.0.0.5" "bob@x.com") (by decide) (by decide),
   (C7_log_before_delete c5db (some "tokA") "10.0.0.5" 14).2.2.1⟩

/-- A second definition following the words of the spec and the claim,
for comparison with the source validator: a dotted-quad is exactly four
dot-separated octets, each a non-empty string of decimal digits whose
value is between 0 and 255. -/
def specDottedQuad (ip : String) : Bool :=
  let parts := pySplit ip "."
  parts.length == 4 &&
    parts.all (fun p => !p.isEmpty && p.toList.all Char.isDigit &&
      decide (digitGroupVal p.toList ≤ 255))

/-- C8, counterexample: the source validator accepts strings that are not
dotted-quads — "+1.2.3.4" passes `validate_ip` (CPython `int("+1")` is 1)
and AddMachine creates a Free entry for it, refuting "succeeds only when
ip is a dotted-quad". -/
theorem C8_counterexample :
    validate_ip "+1.2.3.4" = true ∧ specDottedQuad "+1.2.3.4" = false ∧
    (add_system baseDB (some "tokC") "+1.2.3.4" 5).1 =
      .toastOk "+1.2.3.4 is added successfully!" ∧
    inFree (add_system baseDB (some "tokC") "+1.2.3.4" 5).2 "+1.2.3.4" = true := by
  decide

/-- C8 (amended): for an assigner or manager, AddMachine(ip) succeeds
exactly when `validate_ip` holds — four dot-separated parts each parsing
as a CPython int in 0–255, which also admits non-dotted-quad spellings
like "+1.2.3.4" — and the ip is not already in Free.  "999.1.1.1" fails
validation (octet above 255) with no mutation, and a duplicate ip fails
with no second entry. -/
theorem C8_add_machine (db : DB) (token : Option String) (ip : String)
    (now : Nat) (user : UserView)
    (hu : get_current_user db token now = some user)
    (hrole : user.role = "manager" ∨ user.role = "assigner") :
    (validate_ip ip = false →
      add_system db token ip now = (.toastErr (ip ++ " is in Invalid format!"), db)) ∧
    (validate_ip ip = true → inFree db ip = false →
      add_system db token ip now = (.toastOk (ip ++ " is added successfully!"),
        { db with systems := db.systems ++ [⟨ip⟩] })) ∧
    (validate_ip ip = true → inFree db ip = true →
      add_system db token ip now = (.toastErr (ip ++ " already exists!"), db)) ∧
    validate_ip "999.1.1.1" = false := by
  have hrb : (user.role == "manager" || user.role == "assigner") = true := by
    rcases hrole with h | h <;> simp [h]
  refine ⟨?_, ?_, ?_, by decide⟩
  · intro hip
    simp [add_system, hu, hrb, hip]
  · intro hip hfree
    unfold inFree at hfree
    simp [add_system, hu, hrb, hip, systemsInsert, hfree]
  · intro hip hdup
    unfold inFree at hdup
    simp [add_system, hu, hrb, hip, systemsInsert, hdup]

/-- C8 witness: the amended theorem at concrete inputs — the octet-above-255
scenario fails with no mutation and a fresh valid ip is added. -/
theorem C8_add_machine_witness :
    add_system baseDB (some "tokC") "999.1.1.1" 5 =
      (.toastErr "999.1.1.1 is in Invalid format!", baseDB) ∧
    add_system baseDB (some "tokC") "1.2.3.4" 5 =
      (.toastOk "1.2.3.4 is added successfully!",
        { baseDB with systems := baseDB.systems ++ [⟨"1.2.3.4"⟩] }) :=
  ⟨(C8_add_machine baseDB (some "tokC") "999.1.1.1" 5
      ⟨"Cara", "cara@x.com", "assigner", 0⟩ (by decide) (Or.inr rfl)).1 (by decide),
   (C8_add_machine baseDB (some "tokC") "1.2.3.4" 5
      ⟨"Cara", "cara@x.com", "assigner", 0⟩ (by decide) (Or.inr rfl)).2.1
      (by decide) (by decide)⟩

theorem countDocs_filter_eq {p q : α → Bool} {l : List α}
    (h : ∀ a, p a = true → q a = true) :
    countDocs p (l.filter q) = countDocs p l := by
  unfold countDocs
  induction l with
  | nil => rfl
  | cons a l ih =>
    rw [List.filter_cons]
    by_cases hq : q a = true
    · rw [if_pos hq, List.filter_cons]
      by_cases hp : p a = true
      · rw [if_pos hp, List.length_cons, List.filter_cons, if_pos hp,
          List.length_cons, ih]
      · rw [if_neg hp, ih, List.filter_cons, if_neg hp]
    · have hp : ¬p a = true := fun hp => hq (h a hp)
      rw [if_neg hq, ih, List.filter_cons, if_neg hp]

/-- C9: RemoveMachine by an assigner or manager deletes the Free entry,
the ActiveUsage entry and every Contribution row of the ip, writes no
UsageLog (the logs collection, like users and sessions, is unchanged),
and leaves the state of every other ip untouched. -/
theorem C9_remove_machine (db : DB) (token : Option String) (ip : String)
    (now : Nat) (user : UserView)
    (hu : get_current_user db token now = some user)
    (hrole : user.role = "manager" ∨ user.role = "assigner") :
    (remove_system db token ip now).1 = .toastOk (ip ++ " removed!") ∧
    (remove_system db token ip now).2.systems =
      deleteOne (fun r => r.ip == ip) db.systems ∧
    (remove_system db token ip now).2.active =
      deleteOne (fun r => r.ip == ip) db.active ∧
    (remove_system db token ip now).2.contributors =
      db.contributors.filter (fun c => !(c.main_ip == ip)) ∧
    (remove_system db token ip now).2.logs = db.logs ∧
    (remove_system db token ip now).2.users = db.users ∧
    (remove_system db token ip now).2.sessions = db.sessions ∧
    (remove_system db token ip now).2.contributors.any
      (fun c => c.main_ip == ip) = false ∧
    ((db.systems.map SystemRec.ip).Nodup →
      inFree (remove_system db token ip now).2 ip = false) ∧
    ((db.active.map ActiveRec.ip).Nodup →
      inActive (remove_system db token ip now).2 ip = false) ∧
    (∀ x, x ≠ ip →
      inFree (remove_system db token ip now).2 x = inFree db x ∧
      inActive (remove_system db token ip now).2 x = inActive db x ∧
      countDocs (fun c => c.main_ip == x)
          (remove_system db token ip now).2.contributors =
        countDocs (fun c => c.main_ip == x) db.contributors) := by
  have hrb : (user.role == "manager" || user.role == "assigner") = true := by
    rcases hrole with h | h <;> simp [h]
  have hpost : remove_system db token ip now =
      (.toastOk (ip ++ " removed!"),
        { db with
          systems := deleteOne (fun r => r.ip == ip) db.systems
          active := deleteOne (fun r => r.ip == ip) db.active
          contributors := db.contributors.filter (fun c => !(c.main_ip == ip)) }) := by
    simp [remove_system, hu, hrb]
  rw [hpost]
  refine ⟨rfl, rfl, rfl, rfl, rfl, rfl, rfl, ?_, ?_, ?_, ?_⟩
  · rw [List.any_eq_false]
    intro c hc
    have := (List.mem_filter.mp hc).2
    simp only [Bool.not_eq_true'] at this
    simp [this]
  · intro hs
    exact deleteOne_not_any hs
  · intro ha
    exact deleteOne_not_any ha
  · intro x hx
    have himp : ∀ a : SystemRec, (a.ip == ip) = true → (a.ip == x) = false := by
      intro a hai
      rw [beq_iff_eq] at hai
      rw [hai]
      simpa using fun e => hx e.symm
    have himpA : ∀ a : ActiveRec, (a.ip == ip) = true → (a.ip == x) = false := by
      intro a hai
      rw [beq_iff_eq] at hai
      rw [hai]
      simpa using fun e => hx e.symm
    refine ⟨deleteOne_any_eq_of_imp himp, deleteOne_any_eq_of_imp himpA, ?_⟩
    apply countDocs_filter_eq
    intro c hc
    rw [beq_iff_eq] at hc
    simp [hc, hx]

/-- C9 witness: on a state with 10.0.0.5 occupied by Alice and Bob
contributing, RemoveMachine leaves the log collection unchanged and
removes the active entry. -/
theorem C9_remove_machine_witness :
    (remove_system c5db (some "tokC") "10.0.0.5" 16).2.logs = c5db.logs ∧
    (remove_system c5db (some "tokC") "10.0.0.5" 16).2.active =
      deleteOne (fun r => r.ip == "10.0.0.5") c5db.active :=
  ⟨(C9_remove_machine c5db (some "tokC") "10.0.0.5" 16
      ⟨"Cara", "cara@x.com", "assigner", 0⟩ (by decide) (Or.inr rfl)).2.2.2.2.1,
   (C9_remove_machine c5db (some "tokC") "10.0.0.5" 16
      ⟨"Cara", "cara@x.com", "assigner", 0⟩ (by decide) (Or.inr rfl)).2.2.1⟩

theorem get_current_user_congr {db db' : DB} (h1 : db'.sessions = db.sessions)
    (h2 : db'.users = db.users) (token : Option String) (now : Nat) :
    get_current_user db' token now = get_current_user db token now := by
  unfold get_current_user
  rw [h1, h2]

/-- Under a unique-ip active collection, marking the ip released rewrites
exactly the record that the (ip, user) lookup finds. -/
theorem find_updateOne_released {l : List ActiveRec}
    (hnd : (l.map ActiveRec.ip).Nodup) {ip e : String} {record : ActiveRec}
    (h : l.find? (fun r => r.ip == ip && r.user == e) = some record) :
    (updateOne (fun r => r.ip == ip)
        (fun r => { r with main_released := true }) l).find?
      (fun r => r.ip == ip && r.user == e) =
      some { record with main_released := true } := by
  induction l with
  | nil => simp at h
  | cons a l ih =>
    simp only [List.map_cons, List.nodup_cons] at hnd
    obtain ⟨hna, hnd'⟩ := hnd
    by_cases hmatch : (a.ip == ip && a.user == e) = true
    · rw [@List.find?_cons_of_pos _ (fun r => r.ip == ip && r.user == e)
        a l hmatch] at h
      injection h with h
      subst h
      have haip : (a.ip == ip) = true := by
        have hm := hmatch
        rw [Bool.and_eq_true] at hm
        exact hm.1
      simp only [updateOne]
      rw [if_pos haip]
      exact @List.find?_cons_of_pos _ (fun r => r.ip == ip && r.user == e)
        { a with main_released := true } l hmatch
    · rw [@List.find?_cons_of_neg _ (fun r => r.ip == ip && r.user == e)
        a l hmatch] at h
      by_cases haip : (a.ip == ip) = true
      · exfalso
        have hrecmem := List.mem_of_find?_eq_some h
        have hrecpred := List.find?_some h
        have hrecip : record.ip = ip := by
          have hm := hrecpred
          rw [Bool.and_eq_true] at hm
          have := hm.1
          rwa [beq_iff_eq] at this
        rw [beq_iff_eq] at haip
        exact hna (by rw [haip, ← hrecip]; exact List.mem_map_of_mem _ hrecmem)
      · simp only [updateOne]
        rw [if_neg haip]
        rw [@List.find?_cons_of_neg _ (fun r => r.ip == ip && r.user == e)
          a (updateOne (fun r => r.ip == ip)
            (fun r => { r with main_released := true }) l) hmatch]
        exact ih hnd' h

/-- C10: ReleasePrimary succeeds whenever an ActiveUsage record matches
(ip, caller email) — `main_released` is not part of the lookup filter —
and when contributors remain for this ip+primary it appends exactly one
UsageLog with is_contribution=false spanning the record's original start,
keeps the record (now marked released) and changes nothing else; under
the unique-ip index, invoking it again appends a second primary log for
the same span, so one occupancy can produce several primary logs. -/
theorem C10_release_primary_repeat (db : DB) (token : Option String)
    (ip : String) (now now' : Nat) (user : UserView) (record : ActiveRec)
    (hu : get_current_user db token now = some user)
    (hu' : get_current_user db token now' = some user)
    (hrec : db.active.find? (fun r => r.ip == ip && r.user == user.email) =
      some record)
    (hcnt : countDocs (fun c => c.main_ip == ip && c.main_user == user.email)
      db.contributors ≠ 0) :
    (release_main db token ip now).1 =
      .toastOk (ip ++ " released. Contributors remain.") ∧
    (release_main db token ip now).2.logs = db.logs ++
      [⟨ip, user.email, none, record.project, record.duration,
        record.start_time, now, false⟩] ∧
    (release_main db token ip now).2.active =
      updateOne (fun r => r.ip == ip)
        (fun r => { r with main_released := true }) db.active ∧
    (release_main db token ip now).2.contributors = db.contributors ∧
    (release_main db token ip now).2.systems = db.systems ∧
    ((db.active.map ActiveRec.ip).Nodup →
      (release_main (release_main db token ip now).2 token ip now').2.logs =
        db.logs ++
        [⟨ip, user.email, none, record.project, record.duration,
          record.start_time, now, false⟩,
         ⟨ip, user.email, none, record.project, record.duration,
          record.start_time, now', false⟩]) := by
  have hcntb : (countDocs (fun c => c.main_ip == ip && c.main_user == user.email)
      db.contributors == 0) = false := by
    rw [beq_eq_false_iff_ne]
    exact hcnt
  have hpost : release_main db token ip now =
      (.toastOk (ip ++ " released. Contributors remain."),
        { db with
          logs := db.logs ++ [⟨ip, user.email, none, record.project,
            record.duration, record.start_time, now, false⟩]
          active := updateOne (fun r => r.ip == ip)
            (fun r => { r with main_released := true }) db.active }) := by
    simp only [release_main, hu, hrec, hcntb]
    rfl
  refine ⟨by rw [hpost], by rw [hpost], by rw [hpost], by rw [hpost],
    by rw [hpost], ?_⟩
  intro hnd
  rw [hpost]
  have hu2 : get_current_user
      { db with
        logs := db.logs ++ [⟨ip, user.email, none, record.project,
          record.duration, record.start_time, now, false⟩]
        active := updateOne (fun r => r.ip == ip)
          (fun r => { r with main_released := true }) db.active }
      token now' = some user := by
    rw [get_current_user_congr rfl rfl]
    exact hu'
  have hrec2 := find_updateOne_released hnd hrec
  have hpost2 : release_main
      { db with
        logs := db.logs ++ [⟨ip, user.email, none, record.project,
          record.duration, record.start_time, now, false⟩]
        active := updateOne (fun r => r.ip == ip)
          (fun r => { r with main_released := true }) db.active }
      token ip now' =
      (.toastOk (ip ++ " released. Contributors remain."),
        { db with
          logs := (db.logs ++ [⟨ip, user.email, none, record.project,
            record.duration, record.start_time, now, false⟩]) ++
            [⟨ip, user.email, none, record.project, record.duration,
              record.start_time, now', false⟩]
          active := updateOne (fun r => r.ip == ip)
            (fun r => { r with main_released := true })
            (updateOne (fun r => r.ip == ip)
              (fun r => { r with main_released := true }) db.active) }) := by
    simp only [release_main, hu2, hrec2, hcntb]
    rfl
  rw [hpost2]
  simp

/-- C10 witness: on the state where Alice occupies 10.0.0.5 with Bob
contributing, two successive ReleasePrimary calls by Alice both succeed
and append two primary logs for the same span. -/
theorem C10_release_primary_repeat_witness :
    (release_main c5db (some "tokA") "10.0.0.5" 12).1 =
      .toastOk "10.0.0.5 released. Contributors remain." ∧
    (release_main (release_main c5db (some "tokA") "10.0.0.5" 12).2
        (some "tokA") "10.0.0.5" 15).2.logs =
      c5db.logs ++
      [⟨"10.0.0.5", "alice@x.com", none, "proj-x", "2", 10, 12, false⟩,
       ⟨"10.0.0.5", "alice@x.com", none, "proj-x", "2", 10, 15, false⟩] :=
  ⟨(C10_release_primary_repeat c5db (some "tokA") "10.0.0.5" 12 15
      ⟨"Alice", "alice@x.com", "user", 0⟩
      ⟨"10.0.0.5", "alice@x.com", "proj-x", "2", 10, false⟩
      (by decide) (by decide) (by decide) (by decide)).1,
   (C10_release_primary_repeat c5db (some "tokA") "10.0.0.5" 12 15
      ⟨"Alice", "alice@x.com", "user", 0⟩
      ⟨"10.0.0.5", "alice@x.com", "proj-x", "2", 10, false⟩
      (by decide) (by decide) (by decide) (by decide)).2.2.2.2.2 (by decide)⟩

end SysTrack
